import Mathlib

/-!
Verification of the Ai-Article-Assistant repository: a shallow embedding of
the two FastAPI backends (src/backend.py and src/backend/main.py) and the two
Streamlit frontends (src/frontend.py and src/frontend/app.py), with theorems
settling the claims about the article generate/publish lifecycle.

Conventions of the embedding:
- Outbound HTTP calls are traced: each handler returns, alongside its result,
  the list of requests it issued.  The upstream service (dev.to, the model
  backend) is an oracle function from the request to its response.
- Python dictionary access `d["k"]` is `List.lookup`, with a missing key
  surfaced as a `PyError.keyError` in an `Except`.
- Keyword arguments that a call site leaves unset are `Option.none`.
- Float literals from the source (0.2, 0.8) are rendered as rationals.
-/

/-- A parsed-JSON view of an HTTP response, as the Python code consumes it:
`status_code`, the raw body `text`, and the body parsed as a flat string
dictionary (`response.json()`). -/
structure HttpResponse where
  status_code : Nat
  text : String
  json : List (String × String)
  deriving DecidableEq, Repr

/-- Python exceptions the embedded code can raise, plus the spec's
`ConfigurationError` (spec section 7 error taxonomy).  `keyError k` models a
Python `KeyError` on dictionary key `k`.  No code path in the repository
constructs `configurationError`; it is in the type so that claims about it
can be stated. -/
inductive PyError where
  | keyError (key : String)
  | configurationError
  | invalidInput
  deriving DecidableEq, Repr

/-- The `article` object of the payload sent to the dev.to API
(src/backend.py lines 91-97, src/backend/main.py lines 52-58). -/
structure DevtoPayload where
  title : String
  body_markdown : String
  published : Bool
  deriving DecidableEq, Repr

/-- The headers of the dev.to request.  `api_key` is the value of
`os.getenv("DEVTO_API_KEY")`: `none` when the environment variable is
absent. -/
structure DevtoHeaders where
  api_key : Option String
  content_type : String
  deriving DecidableEq, Repr

/-- One outbound request to the dev.to API: URL, headers, and the JSON
payload `{"article": ...}`. -/
structure DevtoCall where
  url : String
  headers : DevtoHeaders
  payload : DevtoPayload
  deriving DecidableEq, Repr

/-- The body each backend returns from `/publish-to-devto`:
`{"status": "success", "url": ...}` or `{"status": "error", "message": ...}`. -/
inductive DevtoBody where
  | success (url : String)
  | failure (message : String)
  deriving DecidableEq, Repr

/-- Renders a `DevtoBody` as the JSON dictionary the endpoint serialises. -/
def DevtoBody.toJson : DevtoBody → List (String × String)
  | .success u => [("status", "success"), ("url", u)]
  | .failure m => [("status", "error"), ("message", m)]

/-- The `PublishRequest` pydantic model shared by both backends
(src/backend.py lines 62-65, src/backend/main.py lines 37-40):
`title: str`, `content: str`, `published: bool = False`. -/
structure PublishRequest where
  title : String
  content : String
  published : Bool
  deriving DecidableEq, Repr

/-- Pydantic validation of an incoming `/publish-to-devto` JSON body:
`published` is optional (`none` = field omitted) and defaults to `False`
per `published: bool = False`. -/
def PublishRequest.parse (title content : String) (published : Option Bool) :
    PublishRequest :=
  { title := title, content := content, published := published.getD false }

/-- Sampling parameters of one call to a generative-model backend.  A field
is `none` when the call site does not pass that keyword argument. -/
structure GenerationConfig where
  temperature : Option ℚ
  top_p : Option ℚ
  top_k : Option Nat
  max_output_tokens : Option Nat
  deriving DecidableEq, Repr

/-- One outbound request to a generative-model backend: the prompt text and
the sampling parameters passed with it. -/
structure GatewayCall where
  prompt : String
  config : GenerationConfig
  deriving DecidableEq, Repr

/-- The fixed generation configuration the spec states for `generate`
(spec sections 4.4 and 8): `temperature=0.2, topP=0.8, topK=40,
maxOutputTokens=500`, all explicitly set.  Stated from the spec's words for
comparison against what each implementation actually passes. -/
def specFixedGenerationConfig : GenerationConfig :=
  { temperature := some 0.2
    top_p := some 0.8
    top_k := some 40
    max_output_tokens := some 500 }

namespace MainPy

/-- The prompt string built by `generate_article` in src/backend/main.py
line 23. -/
def prompt (title : String) : String :=
  "Write a technical brief article about " ++ title ++
    ". Include a real-world scenario example. This article will be published to dev.to so make sure it is formatted correctly."

/-- `generate_article` from src/backend/main.py lines 21-34.  `gateway` is
the OpenAI chat-completions backend, an oracle from the request to the
returned text.  The call site passes `temperature=0.2` and `max_tokens=500`
and no nucleus/top-k parameters.  The handler performs no validation of the
title and returns `{"article": ...}` with the gateway's text; the result is
an `Except` only so that the absence of any error return can be stated. -/
def generate_article (title : String) (gateway : GatewayCall → String) :
    List GatewayCall × Except PyError String :=
  let call : GatewayCall :=
    { prompt := prompt title
      config :=
        { temperature := some 0.2
          top_p := none
          top_k := none
          max_output_tokens := some 500 } }
  ([call], .ok (gateway call))

/-- The dev.to request built by `publish_to_devto` in src/backend/main.py
(lines 46-58): endpoint URL, `api-key`/`Content-Type` headers, and the
`{"article": {...}}` payload taken from the request fields. -/
def devtoCall (apiKey : Option String) (request : PublishRequest) : DevtoCall :=
  { url := "https://dev.to/api/articles"
    headers := { api_key := apiKey, content_type := "application/json" }
    payload :=
      { title := request.title
        body_markdown := request.content
        published := request.published } }

/-- `publish_to_devto` from src/backend/main.py lines 42-65.  `apiKey` is
`os.getenv("DEVTO_API_KEY")` at call time; `upstream` is the dev.to API.
Returns the list of outbound requests issued and the handler's result:
status 201 maps to the success body with `response.json()["url"]` (a
`keyError` if the parsed body has no `url` field), any other status maps to
the error body carrying `response.text`. -/
def publish_to_devto (apiKey : Option String) (request : PublishRequest)
    (upstream : DevtoCall → HttpResponse) :
    List DevtoCall × Except PyError DevtoBody :=
  let call := devtoCall apiKey request
  let response := upstream call
  ([call],
    if response.status_code = 201 then
      match response.json.lookup "url" with
      | some u => .ok (.success u)
      | none => .error (.keyError "url")
    else
      .ok (.failure response.text))

end MainPy

namespace BackendPy

/-- The prompt string built by `generate_article` in src/backend.py
line 39. -/
def prompt (title : String) : String :=
  "Write a technical brief article about " ++ title ++
    ". Include a real-world scenario example. This article will be published to dev.to so make sure it is formatted correctly. just have only article content in the response no title or anything else add code snippet if needed"

/-- `generate_article` from src/backend.py lines 27-58.  `gateway` is the
Vertex AI Gemini model, an oracle from the request to the returned text.
The `GenerationConfig` at lines 42-47 sets `temperature=0.2, top_p=0.8,
top_k=40, max_output_tokens=500`.  The handler performs no validation of the
title and returns `{"article": ...}` with the gateway's text. -/
def generate_article (title : String) (gateway : GatewayCall → String) :
    List GatewayCall × Except PyError String :=
  let call : GatewayCall :=
    { prompt := prompt title
      config :=
        { temperature := some 0.2
          top_p := some 0.8
          top_k := some 40
          max_output_tokens := some 500 } }
  ([call], .ok (gateway call))

/-- `publish_to_devto` from src/backend.py lines 67-106, translated
independently of the src/backend/main.py version (the two differ only in
print statements and comments).  Same tracing conventions as
`MainPy.publish_to_devto`. -/
def publish_to_devto (apiKey : Option String) (request : PublishRequest)
    (upstream : DevtoCall → HttpResponse) :
    List DevtoCall × Except PyError DevtoBody :=
  let call : DevtoCall :=
    { url := "https://dev.to/api/articles"
      headers := { api_key := apiKey, content_type := "application/json" }
      payload :=
        { title := request.title
          body_markdown := request.content
          published := request.published } }
  let response := upstream call
  ([call],
    if response.status_code = 201 then
      match response.json.lookup "url" with
      | some u => .ok (.success u)
      | none => .error (.keyError "url")
    else
      .ok (.failure response.text))

end BackendPy

/-- The JSON body a frontend posts to `/publish-to-devto`.  `published = none`
means the field is omitted from the JSON object. -/
structure FePublishBody where
  title : String
  content : String
  published : Option Bool
  deriving DecidableEq, Repr

/-- The `/publish-to-devto` route of src/backend/main.py as seen over HTTP:
pydantic parses the body into a `PublishRequest`, the handler runs, and
FastAPI serialises the returned dictionary with its default response status
200 (no `status_code` override is present on the route); an unhandled
exception in the handler becomes a 500 response.  Returns the HTTP status
and the response body as a flat string dictionary. -/
def fastApiPublishEndpoint (apiKey : Option String)
    (upstream : DevtoCall → HttpResponse) (body : FePublishBody) :
    Nat × List (String × String) :=
  let request := PublishRequest.parse body.title body.content body.published
  match (MainPy.publish_to_devto apiKey request upstream).2 with
  | .ok b => (200, b.toJson)
  | .error _ => (500, [("detail", "Internal Server Error")])

/-- Streamlit session state of src/frontend/app.py: the keys
`generated_article` and `article_title` (`none` = key absent) and the
`show_preview` flag (read via `st.session_state.get` with default `False`,
so an absent key and `False` coincide). -/
structure FeSession where
  generated_article : Option String
  article_title : Option String
  show_preview : Bool
  deriving DecidableEq, Repr

/-- What a frontend handler renders to the user: `st.success` or `st.error`
with the given text, or nothing. -/
inductive FeDisplay where
  | successBanner (text : String)
  | errorBanner (text : String)
  | nothing
  deriving DecidableEq, Repr

namespace AppPy

/-- The JSON body the publish handler of src/frontend/app.py posts
(lines 38-44): only `title` and `content`; the `published` field is
omitted. -/
def publishBody (title content : String) : FePublishBody :=
  { title := title, content := content, published := none }

/-- The `Preview on Dev.to` button handler of src/frontend/app.py
(lines 28-30): sets `st.session_state.show_preview = True` and reruns the
script.  It issues no HTTP request, so the trace of outbound requests is
empty. -/
def previewHandler (s : FeSession) : FeSession × List FePublishBody :=
  ({ s with show_preview := true }, [])

/-- The `Approve and Publish to Dev.to` button handler of
src/frontend/app.py (lines 37-52).  `endpoint` is the backend's
`/publish-to-devto` route, returning (HTTP status, parsed JSON body).  The
handler posts `{"title": ..., "content": ...}` and branches on
`publish_response.status_code == 200`: on 200 it renders the success banner
with `json()["url"]` and deletes the three session keys; otherwise it
renders the error banner with `json()["message"]`.  A missing dictionary
key raises `KeyError` before any session mutation (the f-string is
evaluated first). -/
def publishHandler (s : FeSession)
    (endpoint : FePublishBody → Nat × List (String × String)) :
    Except PyError (FeSession × FeDisplay) :=
  match s.article_title, s.generated_article with
  | some t, some a =>
    let response := endpoint (publishBody t a)
    if response.1 = 200 then
      match response.2.lookup "url" with
      | some u =>
        .ok ({ generated_article := none, article_title := none,
               show_preview := false },
             .successBanner ("Article published successfully! View it at: " ++ u))
      | none => .error (.keyError "url")
    else
      match response.2.lookup "message" with
      | some m => .ok (s, .errorBanner ("Failed to publish article: " ++ m))
      | none => .error (.keyError "message")
  | _, _ => .error (.keyError "article_title")

end AppPy

namespace FrontendPy

/-- The JSON body the publish handler of src/frontend.py posts
(lines 40-46): only `title` and `content`; the `published` field is
omitted. -/
def publishBody (title content : String) : FePublishBody :=
  { title := title, content := content, published := none }

end FrontendPy

/-- C1: the publish operation returns the success body with the url taken
from the parsed response body exactly when the dev.to backend answers
status 201, and for every other status it returns the error body whose
message is the raw response text, unmodified. -/
theorem C1_publish_outcome (apiKey : Option String) (request : PublishRequest)
    (upstream : DevtoCall → HttpResponse) (u : String) :
    ((MainPy.publish_to_devto apiKey request upstream).2 = .ok (.success u) ↔
      (upstream (MainPy.devtoCall apiKey request)).status_code = 201 ∧
      (upstream (MainPy.devtoCall apiKey request)).json.lookup "url" = some u) ∧
    ((upstream (MainPy.devtoCall apiKey request)).status_code ≠ 201 →
      (MainPy.publish_to_devto apiKey request upstream).2 =
        .ok (.failure (upstream (MainPy.devtoCall apiKey request)).text)) := by
  simp only [MainPy.publish_to_devto]
  by_cases h : (upstream (MainPy.devtoCall apiKey request)).status_code = 201
  · cases hl : (upstream (MainPy.devtoCall apiKey request)).json.lookup "url" with
    | none => simp [h, hl]
    | some v => simp [h, hl]
  · simp [h]

/-- C1 witness: with a backend that answers 422 and body text `bad`,
publish returns the error body carrying exactly `bad`. -/
theorem C1_publish_outcome_witness :
    (MainPy.publish_to_devto (some "k") ⟨"T", "C", false⟩
      (fun _ => ⟨422, "bad", [("error", "bad")]⟩)).2 = .ok (.failure "bad") :=
  (C1_publish_outcome (some "k") ⟨"T", "C", false⟩
    (fun _ => ⟨422, "bad", [("error", "bad")]⟩) "x").2 (by decide)

/-- C2 counterexample: on the empty (resp. whitespace-only) title, both
generate handlers still issue one model-gateway call and return the gateway
text as the article; neither fails with InvalidInput, refuting the claimed
zero-network-call validation failure. -/
theorem C2_counterexample :
    (MainPy.generate_article "" (fun _ => "x")).1.length = 1 ∧
    (MainPy.generate_article "" (fun _ => "x")).2 = .ok "x" ∧
    (BackendPy.generate_article " " (fun _ => "y")).1.length = 1 ∧
    (BackendPy.generate_article " " (fun _ => "y")).2 = .ok "y" :=
  ⟨rfl, rfl, rfl, rfl⟩

/-- C2 amended: neither backend validates the title.  For an empty or
whitespace-only title, generate issues exactly one Model Gateway call (whose
prompt embeds the blank title) and returns the gateway text; it never fails
with InvalidInput. -/
theorem C2_amended (title : String) (g gv : GatewayCall → String)
    (_h : title.data.all Char.isWhitespace = true) :
    (MainPy.generate_article title g).1.length = 1 ∧
    (MainPy.generate_article title g).2 ≠ .error .invalidInput ∧
    (BackendPy.generate_article title gv).1.length = 1 ∧
    (BackendPy.generate_article title gv).2 ≠ .error .invalidInput :=
  ⟨rfl, fun hc => Except.noConfusion hc, rfl, fun hc => Except.noConfusion hc⟩

/-- C2 amended witness at the empty title. -/
theorem C2_amended_witness :
    " ".data.all Char.isWhitespace = true ∧
    (MainPy.generate_article " " (fun _ => "a")).1.length = 1 ∧
    (MainPy.generate_article " " (fun _ => "a")).2 ≠ .error .invalidInput :=
  ⟨by decide, (C2_amended " " (fun _ => "a") (fun _ => "b") (by decide)).1,
    (C2_amended " " (fun _ => "a") (fun _ => "b") (by decide)).2.1⟩

/-- C3 counterexample: with the publishing API key absent (`none`), publish
still issues one outbound request to dev.to — not zero — and returns the
mapped upstream outcome instead of a ConfigurationError. -/
theorem C3_counterexample :
    (MainPy.publish_to_devto none ⟨"T", "C", false⟩
      (fun _ => ⟨401, "unauthorized", []⟩)).1.length = 1 ∧
    (MainPy.publish_to_devto none ⟨"T", "C", false⟩
      (fun _ => ⟨401, "unauthorized", []⟩)).2 = .ok (.failure "unauthorized") :=
  ⟨rfl, rfl⟩

/-- C3 amended: no API-key check exists.  With the key absent, publish sends
the request anyway, with the api-key header value absent, and never raises
ConfigurationError; the outcome is whatever the upstream response maps to. -/
theorem C3_amended (request : PublishRequest)
    (upstream : DevtoCall → HttpResponse) :
    (MainPy.publish_to_devto none request upstream).1 =
      [{ url := "https://dev.to/api/articles"
         headers := { api_key := none, content_type := "application/json" }
         payload := { title := request.title, body_markdown := request.content,
                      published := request.published } }] ∧
    (MainPy.publish_to_devto none request upstream).2 ≠
      .error .configurationError := by
  refine ⟨rfl, ?_⟩
  simp only [MainPy.publish_to_devto]
  split
  · split <;> simp
  · simp

/-- C3 amended witness at a concrete request and a 401-answering backend. -/
theorem C3_amended_witness :
    (MainPy.publish_to_devto none ⟨"A", "B", false⟩
      (fun _ => ⟨401, "no key", []⟩)).2 ≠ .error .configurationError :=
  (C3_amended ⟨"A", "B", false⟩ (fun _ => ⟨401, "no key", []⟩)).2

/-- C4: from a previewing session, a publish whose upstream outcome is a
failure makes the frontend raise KeyError on the missing url field — the
backend answers HTTP 200 even on failure, the frontend branches on the HTTP
status, takes the success branch, and its error branch never runs — while a
success outcome clears the session back to empty with the success banner. -/
theorem C4_publish_failure_keyerror :
    AppPy.publishHandler ⟨some "art body", some "My Title", true⟩
      (fastApiPublishEndpoint (some "k")
        (fun _ => ⟨422, "Validation failed", [("error", "Validation failed")]⟩)) =
      .error (.keyError "url") ∧
    AppPy.publishHandler ⟨some "art body", some "My Title", true⟩
      (fastApiPublishEndpoint (some "k")
        (fun _ => ⟨201, "created", [("url", "https://dev.to/x/99")]⟩)) =
      .ok (⟨none, none, false⟩,
        .successBanner "Article published successfully! View it at: https://dev.to/x/99") :=
  ⟨rfl, rfl⟩

/-- C5: whenever the dev.to call comes back with a status other than 201,
the /publish-to-devto endpoint still responds with HTTP status 200, its body
carrying status error and the raw upstream text as the message. -/
theorem C5_http200_on_failure (apiKey : Option String)
    (upstream : DevtoCall → HttpResponse) (body : FePublishBody)
    (h : (upstream (MainPy.devtoCall apiKey
      (PublishRequest.parse body.title body.content body.published))).status_code ≠ 201) :
    fastApiPublishEndpoint apiKey upstream body =
      (200, [("status", "error"),
             ("message", (upstream (MainPy.devtoCall apiKey
               (PublishRequest.parse body.title body.content
                 body.published))).text)]) := by
  simp [fastApiPublishEndpoint, MainPy.publish_to_devto, DevtoBody.toJson, h]

/-- C5 witness: a 422 upstream answer still yields an HTTP 200 endpoint
response with the error body. -/
theorem C5_http200_on_failure_witness :
    fastApiPublishEndpoint (some "k") (fun _ => ⟨422, "bad", []⟩)
      ⟨"T", "C", none⟩ =
      (200, [("status", "error"), ("message", "bad")]) :=
  C5_http200_on_failure (some "k") (fun _ => ⟨422, "bad", []⟩)
    ⟨"T", "C", none⟩ (by decide)

/-- C6 counterexample: the src/backend/main.py implementation of generate
issues its single gateway call with only temperature 0.2 and max tokens 500
set; that configuration differs from the fixed
temperature 0.2 / topP 0.8 / topK 40 / maxOutputTokens 500 constant the
claim asserts for every implementation. -/
theorem C6_counterexample :
    (MainPy.generate_article "Kubernetes Operators" (fun _ => "body")).1 =
      [{ prompt := MainPy.prompt "Kubernetes Operators"
         config := { temperature := some 0.2, top_p := none, top_k := none,
                     max_output_tokens := some 500 } }] ∧
    ({ temperature := some 0.2, top_p := none, top_k := none,
       max_output_tokens := some 500 } : GenerationConfig) ≠
      specFixedGenerationConfig :=
  ⟨rfl, by simp [specFixedGenerationConfig]⟩

/-- C6 amended: for every non-empty title each implementation issues exactly
one gateway call whose prompt contains the title as a substring; the
src/backend.py (Vertex AI) call passes exactly the fixed configuration
temperature 0.2, topP 0.8, topK 40, maxOutputTokens 500, while the
src/backend/main.py (OpenAI) call passes only temperature 0.2 and
max tokens 500, leaving topP and topK unset. -/
theorem C6_amended (title : String) (g gv : GatewayCall → String)
    (_h : title ≠ "") :
    (BackendPy.generate_article title gv).1 =
      [{ prompt := BackendPy.prompt title, config := specFixedGenerationConfig }] ∧
    (∃ pre suf, BackendPy.prompt title = pre ++ title ++ suf) ∧
    (MainPy.generate_article title g).1 =
      [{ prompt := MainPy.prompt title
         config := { temperature := some 0.2, top_p := none, top_k := none,
                     max_output_tokens := some 500 } }] ∧
    (∃ pre suf, MainPy.prompt title = pre ++ title ++ suf) :=
  ⟨rfl, ⟨_, _, rfl⟩, rfl, ⟨_, _, rfl⟩⟩

/-- C6 amended witness at the title from the end-to-end spec scenario. -/
theorem C6_amended_witness :
    "Kubernetes Operators" ≠ "" ∧
    (∃ pre suf, MainPy.prompt "Kubernetes Operators" =
      pre ++ "Kubernetes Operators" ++ suf) :=
  ⟨by decide,
    (C6_amended "Kubernetes Operators" (fun _ => "a") (fun _ => "b")
      (by decide)).2.2.2⟩

/-- C7: a publish body with the published field omitted parses to the same
request as one with published explicitly false; the whole publish behaviour
coincides, and the forwarded dev.to payload carries published false. -/
theorem C7_default_draft (title content : String) (apiKey : Option String)
    (upstream : DevtoCall → HttpResponse) :
    PublishRequest.parse title content none =
      PublishRequest.parse title content (some false) ∧
    MainPy.publish_to_devto apiKey (PublishRequest.parse title content none)
        upstream =
      MainPy.publish_to_devto apiKey
        (PublishRequest.parse title content (some false)) upstream ∧
    (MainPy.devtoCall apiKey
      (PublishRequest.parse title content none)).payload.published = false :=
  ⟨rfl, rfl, rfl⟩

/-- C8: the preview button handler issues no HTTP request and changes
nothing in the session except setting the preview flag: the article body and
its title are untouched. -/
theorem C8_preview_local (s : FeSession) :
    (AppPy.previewHandler s).2 = [] ∧
    (AppPy.previewHandler s).1.generated_article = s.generated_article ∧
    (AppPy.previewHandler s).1.article_title = s.article_title ∧
    (AppPy.previewHandler s).1.show_preview = true :=
  ⟨rfl, rfl, rfl, rfl⟩

/-- C9: the two publish_to_devto implementations are behaviourally
identical: for every API-key state, request, and upstream behaviour they
issue the same outbound call (same URL, headers, payload) and return the
same response body. -/
theorem C9_backend_equivalence (apiKey : Option String)
    (request : PublishRequest) (upstream : DevtoCall → HttpResponse) :
    BackendPy.publish_to_devto apiKey request upstream =
      MainPy.publish_to_devto apiKey request upstream :=
  rfl

/-- C10: both frontends omit the published field from every publish request
they build, pydantic therefore defaults it to false, and the payload that
reaches dev.to carries published false — no UI path publishes non-draft. -/
theorem C10_ui_always_draft (title content : String) (apiKey : Option String)
    (upstream : DevtoCall → HttpResponse) :
    (AppPy.publishBody title content).published = none ∧
    (FrontendPy.publishBody title content).published = none ∧
    (PublishRequest.parse title content
      (AppPy.publishBody title content).published).published = false ∧
    ((MainPy.publish_to_devto apiKey
        (PublishRequest.parse title content
          (FrontendPy.publishBody title content).published)
        upstream).1.map fun c => c.payload.published) = [false] :=
  ⟨rfl, rfl, rfl, rfl⟩
